import Mathlib

set_option maxHeartbeats 1000000

/-! Verification of the DWARF unit-header decoder in gdb/dwarf2/comp-unit.c.

The decoder `read_comp_unit_head`, the bounds validator
`error_check_comp_unit_head` and the checked entry point
`read_and_check_comp_unit_head` are embedded directly from the C source.
Byte-level reading primitives (dwarf2/leb.c, bfd) and two type-level
details (the width `type_offset_in_unit` is narrowed to, and
`comp_unit_head::get_length`) are not part of comp-unit.c; those are
modelled from the specification and say so in their doc comments.

Cursors are byte indices into the section buffer; fatal `error` calls
are embedded as `Except.error` values. -/

/-- Byte order declared by the owning object file (bfd). -/
inductive Endian
  | little
  | big
deriving DecidableEq

/-- The slice of the owning bfd that the decoder consults: the declared
byte order and the address sign-extension policy
(`bfd_get_sign_extend_vma`, negative when undefined). -/
structure objfile_ctx where
  byte_order : Endian
  sign_extend_vma : Int
deriving DecidableEq

/-- A DWARF debug-information section: resident bytes, the byte length
consulted by the bounds validator, and the owning object file. -/
structure dwarf2_section_info where
  buffer : List Nat
  size : Nat
  owner : objfile_ctx
deriving DecidableEq

/-- One byte of section memory; a byte is always below 256. -/
def byteAt (buf : List Nat) (i : Nat) : Nat := buf.getD i 0 % 256

/-- Little-endian k-byte read (bfd_getl family). -/
def read_le (buf : List Nat) : Nat → Nat → Nat
  | _, 0 => 0
  | pos, k + 1 => byteAt buf pos + 256 * read_le buf (pos + 1) k

/-- Big-endian k-byte read (bfd_getb family). -/
def read_be (buf : List Nat) : Nat → Nat → Nat
  | _, 0 => 0
  | pos, k + 1 => byteAt buf pos * 256 ^ k + read_be buf (pos + 1) k

/-- Modelled from the spec: bfd's k-byte read, little or big endian per
the object file's declared byte order (spec section 6). -/
def read_n_bytes (abfd : objfile_ctx) (buf : List Nat) (pos k : Nat) : Nat :=
  match abfd.byte_order with
  | Endian.little => read_le buf pos k
  | Endian.big => read_be buf pos k

/-- Modelled from the spec: read_1_byte of dwarf2/leb.h. -/
def read_1_byte (abfd : objfile_ctx) (buf : List Nat) (pos : Nat) : Nat :=
  read_n_bytes abfd buf pos 1

/-- Modelled from the spec: read_2_bytes of dwarf2/leb.h. -/
def read_2_bytes (abfd : objfile_ctx) (buf : List Nat) (pos : Nat) : Nat :=
  read_n_bytes abfd buf pos 2

/-- Modelled from the spec: read_4_bytes of dwarf2/leb.h. -/
def read_4_bytes (abfd : objfile_ctx) (buf : List Nat) (pos : Nat) : Nat :=
  read_n_bytes abfd buf pos 4

/-- Modelled from the spec: read_8_bytes of dwarf2/leb.h. -/
def read_8_bytes (abfd : objfile_ctx) (buf : List Nat) (pos : Nat) : Nat :=
  read_n_bytes abfd buf pos 8

/-- Modelled from the spec: read_initial_length (dwarf2/leb.c, not under
src/). Spec section 4.1: if the raw 4-byte value equals the reserved
64-bit DWARF escape marker 0xffffffff, the true length follows as an
8-byte value and 12 bytes are consumed; otherwise the 4-byte value is
the length and 4 bytes are consumed. Returns (length, bytes_read). -/
def read_initial_length (abfd : objfile_ctx) (buf : List Nat) (pos : Nat) : Nat × Nat :=
  let l := read_4_bytes abfd buf pos
  if l = 0xffffffff then (read_8_bytes abfd buf (pos + 4), 12) else (l, 4)

/-- DW_UT_compile (0x01). -/
def DW_UT_compile : Nat := 0x01
/-- DW_UT_type (0x02). -/
def DW_UT_type : Nat := 0x02
/-- DW_UT unit-type code 0x03 (the DWARF partial-unit code). -/
def DW_UT_partial : Nat := 0x03
/-- DW_UT_skeleton (0x04). -/
def DW_UT_skeleton : Nat := 0x04
/-- DW_UT_split_compile (0x05). -/
def DW_UT_split_compile : Nat := 0x05
/-- DW_UT_split_type (0x06). -/
def DW_UT_split_type : Nat := 0x06
/-- DW_UT_lo_user (0x80). -/
def DW_UT_lo_user : Nat := 0x80
/-- DW_UT_hi_user (0xff). -/
def DW_UT_hi_user : Nat := 0xff

/-- Underlying value of rcuh_kind::COMPILE. -/
def rcuh_COMPILE : Nat := 0
/-- Underlying value of rcuh_kind::TYPE. -/
def rcuh_TYPE : Nat := 1

/-- The fatal failures of the decode path. `error` calls become the
DWARF-error constructors; the two `internal_error` calls (invalid
section kind, object file without a sign-extension policy) become
`InvalidSectionKind` and `InvalidObjectFile`. -/
inductive DwarfError
  | BadVersion
  | BadUnitType
  | InvalidSectionKind
  | InvalidObjectFile
  | TypeOffsetTooLarge
  | BadAbbrevOffset
  | BadUnitLength
deriving DecidableEq

instance exceptDecEq {ε α : Type} [DecidableEq ε] [DecidableEq α] :
    DecidableEq (Except ε α) := fun x y =>
  match x, y with
  | Except.error a, Except.error b =>
    if h : a = b then Decidable.isTrue (by rw [h])
    else Decidable.isFalse (fun hc => h (Except.error.inj hc))
  | Except.ok a, Except.ok b =>
    if h : a = b then Decidable.isTrue (by rw [h])
    else Decidable.isFalse (fun hc => h (Except.ok.inj hc))
  | Except.error _, Except.ok _ => Decidable.isFalse (fun hc => Except.noConfusion hc)
  | Except.ok _, Except.error _ => Decidable.isFalse (fun hc => Except.noConfusion hc)

/-- struct comp_unit_head (dwarf2/comp-unit.h). Fields that are only
conditionally read from the stream (`signature`,
`type_cu_offset_in_tu`) are `Option`s, `none` when the decode did not
read them. `sect_off` and `first_die_cu_offset` are filled by the
checked entry point, not by the raw decode. -/
structure comp_unit_head where
  length : Nat
  initial_length_size : Nat
  offset_size : Nat
  version : Nat
  unit_type : Nat
  addr_size : Nat
  abbrev_sect_off : Nat
  signed_addr_p : Int
  signature : Option Nat
  type_cu_offset_in_tu : Option Nat
  sect_off : Nat
  first_die_cu_offset : Nat
deriving DecidableEq

/-- Modelled from the spec: the width `type_offset_in_unit` is narrowed
to. The underlying type of `cu_offset` is not under src/; spec section
4.3 re-narrows the decoded offset to the unit's offset_size width. -/
def cu_offset_narrow (v offset_size : Nat) : Nat := v % 2 ^ (8 * offset_size)

/-- The narrowing check of comp-unit.c lines 157-167: store the narrowed
type offset, failing with TypeOffsetTooLarge when the narrowed value
differs from the decoded one. -/
def check_type_offset (type_offset offset_size : Nat) : Except DwarfError Nat :=
  if cu_offset_narrow type_offset offset_size ≠ type_offset then
    Except.error DwarfError.TypeOffsetTooLarge
  else Except.ok (cu_offset_narrow type_offset offset_size)

/-- Modelled from the spec: leb.c's offset_size-driven read_offset
(spec section 4.5, read_offset_field): read a 4- or 8-byte offset per an
already-known offset_size. -/
def read_offset_field (abfd : objfile_ctx) (buf : List Nat) (pos offset_size : Nat) : Nat :=
  read_n_bytes abfd buf pos offset_size

/-- comp-unit.c lines 84-131: resolve the unit type. For versions below
5 the unit type is synthesized from the caller-supplied section kind
(an invalid kind is an internal error); for version 5 an explicit
unit-type byte is read and cross-validated, reclassifying the effective
kind to TYPE for type/split_type units, and the address size is read
immediately after the unit-type byte. Returns (unit_type, effective
section kind, version-5 address size (0 when below 5), cursor). -/
def resolve_unit_type (abfd : objfile_ctx) (buf : List Nat)
    (version section_kind p : Nat) : Except DwarfError (Nat × Nat × Nat × Nat) :=
  if version < 5 then
    if section_kind = rcuh_COMPILE then Except.ok (DW_UT_compile, section_kind, 0, p)
    else if section_kind = rcuh_TYPE then Except.ok (DW_UT_type, section_kind, 0, p)
    else Except.error DwarfError.InvalidSectionKind
  else
    let ut := read_1_byte abfd buf p
    if ut = DW_UT_compile ∨ ut = DW_UT_partial ∨ ut = DW_UT_skeleton ∨
        ut = DW_UT_split_compile then
      if section_kind ≠ rcuh_COMPILE then Except.error DwarfError.BadUnitType
      else Except.ok (ut, section_kind, read_1_byte abfd buf (p + 1), p + 2)
    else if ut = DW_UT_type ∨ ut = DW_UT_split_type then
      Except.ok (ut, rcuh_TYPE, read_1_byte abfd buf (p + 1), p + 2)
    else Except.error DwarfError.BadUnitType

/-- read_comp_unit_head (comp-unit.c lines 63-170). Reads the initial
length, version, unit type (version 5), abbreviation offset, address
size (before the abbreviation offset for version 5, after it
otherwise), the sign-extension policy, and the conditional signature
and type offset. Returns the header and the cursor after the header. -/
def read_comp_unit_head (sec : dwarf2_section_info) (info_ptr : Nat)
    (section_kind : Nat) : Except DwarfError (comp_unit_head × Nat) :=
  let abfd := sec.owner
  let buf := sec.buffer
  let il := read_initial_length abfd buf info_ptr
  let offset_size := if il.2 = 4 then 4 else 8
  let p1 := info_ptr + il.2
  let version := read_2_bytes abfd buf p1
  if version < 2 ∨ 5 < version then Except.error DwarfError.BadVersion
  else
    match resolve_unit_type abfd buf version section_kind (p1 + 2) with
    | Except.error e => Except.error e
    | Except.ok r =>
      let unit_type := r.1
      let kind := r.2.1
      let p4 := r.2.2.2
      let abbrev_sect_off := read_offset_field abfd buf p4 offset_size
      let p5 := p4 + offset_size
      let addr_size := if version < 5 then read_1_byte abfd buf p5 else r.2.2.1
      let p6 := if version < 5 then p5 + 1 else p5
      if abfd.sign_extend_vma < 0 then Except.error DwarfError.InvalidObjectFile
      else
        let header_has_signature :=
          kind = rcuh_TYPE ∨ unit_type = DW_UT_skeleton ∨ unit_type = DW_UT_split_compile
        let signature := if header_has_signature then some (read_8_bytes abfd buf p6) else none
        let p7 := if header_has_signature then p6 + 8 else p6
        if kind = rcuh_TYPE then
          match check_type_offset (read_offset_field abfd buf p7 offset_size) offset_size with
          | Except.error e => Except.error e
          | Except.ok t =>
            Except.ok
              ({ length := il.1, initial_length_size := il.2, offset_size := offset_size,
                 version := version, unit_type := unit_type, addr_size := addr_size,
                 abbrev_sect_off := abbrev_sect_off, signed_addr_p := abfd.sign_extend_vma,
                 signature := signature, type_cu_offset_in_tu := some t,
                 sect_off := 0, first_die_cu_offset := 0 }, p7 + offset_size)
        else
          Except.ok
            ({ length := il.1, initial_length_size := il.2, offset_size := offset_size,
               version := version, unit_type := unit_type, addr_size := addr_size,
               abbrev_sect_off := abbrev_sect_off, signed_addr_p := abfd.sign_extend_vma,
               signature := signature, type_cu_offset_in_tu := none,
               sect_off := 0, first_die_cu_offset := 0 }, p7)

/-- Modelled from the spec: comp_unit_head::get_length (comp-unit.h, not
under src/). Spec sections 3 and 4.4 state the bounds rule over the
encoded unit-body length. -/
def comp_unit_head.get_length (h : comp_unit_head) : Nat := h.length

/-- error_check_comp_unit_head (comp-unit.c lines 176-200): the
abbreviation offset must lie strictly inside the abbreviation section,
and the unit must not run past the end of its own section; the length
comparison is computed after the C cast to the 64-bit ULONGEST, hence
modulo 2^64. -/
def error_check_comp_unit_head (header : comp_unit_head)
    (sec absec : dwarf2_section_info) : Except DwarfError Unit :=
  if absec.size ≤ header.abbrev_sect_off then Except.error DwarfError.BadAbbrevOffset
  else if sec.size < (header.sect_off + header.get_length) % 2 ^ 64 then
    Except.error DwarfError.BadUnitLength
  else Except.ok ()

/-- read_and_check_comp_unit_head (comp-unit.c lines 204-224): record
the unit's section offset, run the raw decode, derive the first-DIE
offset from the cursor delta, then validate. -/
def read_and_check_comp_unit_head (sec absec : dwarf2_section_info)
    (info_ptr : Nat) (section_kind : Nat) : Except DwarfError (comp_unit_head × Nat) :=
  let beg_of_comp_unit := info_ptr
  match read_comp_unit_head sec info_ptr section_kind with
  | Except.error e => Except.error e
  | Except.ok hp =>
    let header :=
      { hp.1 with
        sect_off := beg_of_comp_unit
        first_die_cu_offset := hp.2 - beg_of_comp_unit }
    match error_check_comp_unit_head header sec absec with
    | Except.error e => Except.error e
    | Except.ok _ => Except.ok (header, hp.2)

/-- read_offset (comp-unit.c lines 228-236): offset read driven by the
unit's offset_size; returns (value, bytes_read). -/
def read_offset (abfd : objfile_ctx) (buf : List Nat)
    (cu_header : comp_unit_head) (pos : Nat) : Nat × Nat :=
  (read_offset_field abfd buf pos cu_header.offset_size, cu_header.offset_size)

/-- Number of bytes the initial-length field at `pos` occupies. -/
def initial_length_size_at (sec : dwarf2_section_info) (pos : Nat) : Nat :=
  (read_initial_length sec.owner sec.buffer pos).2

/-- The offset size the initial-length field at `pos` selects. -/
def offset_size_at (sec : dwarf2_section_info) (pos : Nat) : Nat :=
  if (read_initial_length sec.owner sec.buffer pos).2 = 4 then 4 else 8

/-- The version field a decode starting at `pos` reads. -/
def version_at (sec : dwarf2_section_info) (pos : Nat) : Nat :=
  read_2_bytes sec.owner sec.buffer (pos + (read_initial_length sec.owner sec.buffer pos).2)

/-- The version-5 unit-type byte a decode starting at `pos` reads. -/
def unit_type_at (sec : dwarf2_section_info) (pos : Nat) : Nat :=
  read_1_byte sec.owner sec.buffer (pos + (read_initial_length sec.owner sec.buffer pos).2 + 2)

/-- The effective section kind for the tail of a decode: the caller's
kind, except that a version-5 type/split_type unit-type byte
reclassifies it to TYPE. -/
def effective_kind (sec : dwarf2_section_info) (pos kind : Nat) : Nat :=
  if version_at sec pos < 5 then kind
  else if unit_type_at sec pos = DW_UT_type ∨ unit_type_at sec pos = DW_UT_split_type then
    rcuh_TYPE
  else kind

/-- A little-endian object file with a defined (signed) address policy. -/
def bfdLE : objfile_ctx := { byte_order := Endian.little, sign_extend_vma := 1 }

/-- A version-4 compile unit: initial length 20 (4 bytes), version 4,
abbrev offset 0 (4 bytes), address size 8 (1 byte). -/
def secV4 : dwarf2_section_info :=
  { buffer := [20, 0, 0, 0, 4, 0, 0, 0, 0, 0, 8], size := 20, owner := bfdLE }

/-- A version-5 type unit: unit-type byte 0x02, address size 8, abbrev
offset 0, signature, 4-byte type offset 9. -/
def secV5type : dwarf2_section_info :=
  { buffer := [25, 0, 0, 0, 5, 0, 2, 8, 0, 0, 0, 0, 1, 2, 3, 4, 5, 6, 7, 8, 9, 0, 0, 0],
    size := 25, owner := bfdLE }

/-- A version-5 unit whose unit-type byte is DW_UT_skeleton (0x04). -/
def secV5skeleton : dwarf2_section_info :=
  { buffer := [24, 0, 0, 0, 5, 0, 4, 8, 0, 0, 0, 0, 1, 2, 3, 4, 5, 6, 7, 8],
    size := 24, owner := bfdLE }

/-- A version-5 unit whose unit-type byte is DW_UT_lo_user (0x80). -/
def secV5louser : dwarf2_section_info :=
  { buffer := [24, 0, 0, 0, 5, 0, 0x80, 8], size := 24, owner := bfdLE }

/-- A 64-bit-DWARF version-5 type unit: escape marker, 8-byte length 40,
version 5, unit type 0x02, address size 8, 8-byte abbrev offset 1,
signature, 8-byte type offset 2^32. -/
def secDwarf64type : dwarf2_section_info :=
  { buffer := [0xff, 0xff, 0xff, 0xff, 40, 0, 0, 0, 0, 0, 0, 0, 5, 0, 2, 8,
               1, 0, 0, 0, 0, 0, 0, 0, 1, 2, 3, 4, 5, 6, 7, 8, 0, 0, 0, 0, 1, 0, 0, 0],
    size := 48, owner := bfdLE }

/-- A one-byte abbreviation section. -/
def absec1 : dwarf2_section_info := { buffer := [], size := 1, owner := bfdLE }

/-- Version 3 stream used to exercise C7 on a concrete input. -/
def secV3 : dwarf2_section_info :=
  { buffer := [9, 0, 0, 0, 3, 0, 0, 0, 0, 0, 4], size := 13, owner := bfdLE }

/-- A header whose unit spans bytes [50, 150) of its section. -/
def hdrC3 : comp_unit_head :=
  { length := 100, initial_length_size := 4, offset_size := 4, version := 4, unit_type := 1,
    addr_size := 8, abbrev_sect_off := 0, signed_addr_p := 1, signature := none,
    type_cu_offset_in_tu := none, sect_off := 50, first_die_cu_offset := 11 }

/-- An empty abbreviation section. -/
def absec0 : dwarf2_section_info := { buffer := [], size := 0, owner := bfdLE }

/-- The header decoded from secDwarf64type. -/
def hdr64 : comp_unit_head :=
  { length := 40, initial_length_size := 12, offset_size := 8, version := 5, unit_type := 2,
    addr_size := 8, abbrev_sect_off := 1, signed_addr_p := 1,
    signature := some 0x0807060504030201, type_cu_offset_in_tu := some (2 ^ 32),
    sect_off := 0, first_die_cu_offset := 0 }

/-- The header decoded from secV5skeleton. -/
def hdrSkel : comp_unit_head :=
  { length := 24, initial_length_size := 4, offset_size := 4, version := 5, unit_type := 4,
    addr_size := 8, abbrev_sect_off := 0, signed_addr_p := 1,
    signature := some 0x0807060504030201, type_cu_offset_in_tu := none,
    sect_off := 0, first_die_cu_offset := 0 }

/-- The header the checked entry point produces for secV4. -/
def hdrV4checked : comp_unit_head :=
  { length := 20, initial_length_size := 4, offset_size := 4, version := 4, unit_type := 1,
    addr_size := 8, abbrev_sect_off := 0, signed_addr_p := 1, signature := none,
    type_cu_offset_in_tu := none, sect_off := 0, first_die_cu_offset := 11 }

lemma byteAt_lt_256 (buf : List Nat) (i : Nat) : byteAt buf i < 256 :=
  Nat.mod_lt _ (by norm_num)

lemma read_le_lt (buf : List Nat) (k : Nat) : ∀ pos, read_le buf pos k < 256 ^ k := by
  induction k with
  | zero => intro pos; simp [read_le]
  | succ n ih =>
    intro pos
    have h1 := byteAt_lt_256 buf pos
    have h2 := ih (pos + 1)
    have h3 : (256 : Nat) ^ (n + 1) = 256 ^ n * 256 := pow_succ 256 n
    simp only [read_le]
    omega

lemma read_be_lt (buf : List Nat) (k : Nat) : ∀ pos, read_be buf pos k < 256 ^ k := by
  induction k with
  | zero => intro pos; simp [read_be]
  | succ n ih =>
    intro pos
    have h1 := byteAt_lt_256 buf pos
    have h2 := ih (pos + 1)
    have h3 : (256 : Nat) ^ (n + 1) = 256 ^ n * 256 := pow_succ 256 n
    have h4 : byteAt buf pos * 256 ^ n ≤ 255 * 256 ^ n :=
      mul_le_mul_right' (by omega) (256 ^ n)
    simp only [read_be]
    omega

lemma read_n_bytes_lt (abfd : objfile_ctx) (buf : List Nat) (pos k : Nat) :
    read_n_bytes abfd buf pos k < 256 ^ k := by
  unfold read_n_bytes
  cases abfd.byte_order
  · exact read_le_lt buf k pos
  · exact read_be_lt buf k pos

lemma cu_offset_narrow_small {v k : Nat} (h : v < 256 ^ k) : cu_offset_narrow v k = v := by
  unfold cu_offset_narrow
  rw [show (2 : Nat) ^ (8 * k) = 256 ^ k by rw [pow_mul]; norm_num]
  exact Nat.mod_eq_of_lt h

lemma check_type_offset_of_read (abfd : objfile_ctx) (buf : List Nat) (pos k : Nat) :
    check_type_offset (read_offset_field abfd buf pos k) k =
      Except.ok (read_offset_field abfd buf pos k) := by
  have h : read_offset_field abfd buf pos k < 256 ^ k := read_n_bytes_lt abfd buf pos k
  unfold check_type_offset
  rw [cu_offset_narrow_small h]
  simp

lemma resolve_error_char {abfd : objfile_ctx} {buf : List Nat}
    {version section_kind p : Nat} {e : DwarfError}
    (hr : resolve_unit_type abfd buf version section_kind p = Except.error e) :
    e = DwarfError.InvalidSectionKind ∨ e = DwarfError.BadUnitType := by
  unfold resolve_unit_type at hr
  split at hr
  · split at hr
    · simp_all
    · split at hr
      · simp_all
      · simp_all
  · simp only [] at hr
    split at hr
    · split at hr
      · simp_all
      · simp_all
    · split at hr
      · simp_all
      · simp_all

lemma resolve_ok_char {abfd : objfile_ctx} {buf : List Nat}
    {version section_kind p : Nat} {r : Nat × Nat × Nat × Nat}
    (hr : resolve_unit_type abfd buf version section_kind p = Except.ok r) :
    (version < 5 ∧ (section_kind = rcuh_COMPILE ∨ section_kind = rcuh_TYPE) ∧
      r = ((if section_kind = rcuh_COMPILE then DW_UT_compile else DW_UT_type),
            section_kind, 0, p)) ∨
    (¬ version < 5 ∧ r.1 = read_1_byte abfd buf p ∧
      r.2.2.1 = read_1_byte abfd buf (p + 1) ∧ r.2.2.2 = p + 2 ∧
      (((r.1 = DW_UT_type ∨ r.1 = DW_UT_split_type) ∧ r.2.1 = rcuh_TYPE) ∨
       ((r.1 = DW_UT_compile ∨ r.1 = DW_UT_partial ∨ r.1 = DW_UT_skeleton ∨
         r.1 = DW_UT_split_compile) ∧ r.2.1 = section_kind ∧
         section_kind = rcuh_COMPILE))) := by
  unfold resolve_unit_type at hr
  by_cases h5 : version < 5
  · rw [if_pos h5] at hr
    left
    by_cases hc : section_kind = rcuh_COMPILE
    · rw [if_pos hc] at hr
      rw [if_pos hc]
      exact ⟨h5, Or.inl hc, (Except.ok.inj hr).symm⟩
    · rw [if_neg hc] at hr
      by_cases ht : section_kind = rcuh_TYPE
      · rw [if_pos ht] at hr
        rw [if_neg hc]
        exact ⟨h5, Or.inr ht, (Except.ok.inj hr).symm⟩
      · rw [if_neg ht] at hr
        exact absurd hr (by simp)
  · rw [if_neg h5] at hr
    right
    simp only [] at hr
    by_cases hg : read_1_byte abfd buf p = DW_UT_compile ∨
        read_1_byte abfd buf p = DW_UT_partial ∨ read_1_byte abfd buf p = DW_UT_skeleton ∨
        read_1_byte abfd buf p = DW_UT_split_compile
    · rw [if_pos hg] at hr
      by_cases hc : section_kind = rcuh_COMPILE
      · rw [if_neg (not_not_intro hc)] at hr
        have h := (Except.ok.inj hr).symm
        subst h
        exact ⟨h5, rfl, rfl, rfl, Or.inr ⟨hg, rfl, hc⟩⟩
      · rw [if_pos hc] at hr
        exact absurd hr (by simp)
    · rw [if_neg hg] at hr
      by_cases ht : read_1_byte abfd buf p = DW_UT_type ∨
          read_1_byte abfd buf p = DW_UT_split_type
      · rw [if_pos ht] at hr
        have h := (Except.ok.inj hr).symm
        subst h
        exact ⟨h5, rfl, rfl, rfl, Or.inl ⟨ht, rfl⟩⟩
      · rw [if_neg ht] at hr
        exact absurd hr (by simp)

lemma decode_ok_char {sec : dwarf2_section_info} {pos kind : Nat}
    {h : comp_unit_head} {p : Nat}
    (hok : read_comp_unit_head sec pos kind = Except.ok (h, p)) :
    h.version = version_at sec pos ∧
    h.offset_size = offset_size_at sec pos ∧
    (h.signature.isSome ↔ (effective_kind sec pos kind = rcuh_TYPE ∨
        h.unit_type = DW_UT_skeleton ∨ h.unit_type = DW_UT_split_compile)) ∧
    (h.type_cu_offset_in_tu.isSome ↔ effective_kind sec pos kind = rcuh_TYPE) ∧
    (∀ t, h.type_cu_offset_in_tu = some t → cu_offset_narrow t h.offset_size = t) ∧
    h.addr_size = (if version_at sec pos < 5 then
        read_1_byte sec.owner sec.buffer
          (pos + initial_length_size_at sec pos + 2 + offset_size_at sec pos)
      else read_1_byte sec.owner sec.buffer (pos + initial_length_size_at sec pos + 2 + 1)) ∧
    (version_at sec pos < 5 →
      h.unit_type = (if kind = rcuh_COMPILE then DW_UT_compile else DW_UT_type)) ∧
    p = pos + initial_length_size_at sec pos + 2 +
      (if version_at sec pos < 5 then offset_size_at sec pos + 1
       else 2 + offset_size_at sec pos) +
      (if effective_kind sec pos kind = rcuh_TYPE ∨ h.unit_type = DW_UT_skeleton ∨
          h.unit_type = DW_UT_split_compile then 8 else 0) +
      (if effective_kind sec pos kind = rcuh_TYPE then offset_size_at sec pos else 0) := by
  unfold read_comp_unit_head at hok
  simp only [] at hok
  split at hok
  · exact absurd hok (by simp)
  · rename_i hvr
    split at hok
    · exact absurd hok (by simp)
    · rename_i r heq
      rcases resolve_ok_char heq with ⟨h5, hkinds, hrt⟩ | ⟨h5, hr1, hr221, hr222, hcc⟩
      · subst hrt
        simp only [if_pos h5] at hok
        split at hok
        · exact absurd hok (by simp)
        · rename_i hsgn
          rcases hkinds with hkc | hkt
          · subst hkc
            simp only [rcuh_COMPILE, rcuh_TYPE, DW_UT_compile, DW_UT_type, DW_UT_skeleton,
              DW_UT_split_compile] at hok
            simp at hok
            obtain ⟨hh, hp⟩ := hok
            subst hh
            subst hp
            simp [version_at, offset_size_at, initial_length_size_at, effective_kind,
              unit_type_at, h5, rcuh_COMPILE, rcuh_TYPE, DW_UT_compile, DW_UT_type,
              DW_UT_skeleton, DW_UT_split_compile]
            try omega
          · subst hkt
            simp only [rcuh_COMPILE, rcuh_TYPE, DW_UT_compile, DW_UT_type, DW_UT_skeleton,
              DW_UT_split_compile] at hok
            simp at hok
            rw [check_type_offset_of_read] at hok
            simp at hok
            obtain ⟨hh, hp⟩ := hok
            subst hh
            subst hp
            simp [version_at, offset_size_at, initial_length_size_at, effective_kind,
              unit_type_at, h5, rcuh_COMPILE, rcuh_TYPE, DW_UT_compile, DW_UT_type,
              DW_UT_skeleton, DW_UT_split_compile]
            refine ⟨cu_offset_narrow_small (read_n_bytes_lt sec.owner sec.buffer _ _), ?_⟩
            omega
      · simp only [if_neg h5] at hok
        rw [hr1, hr221, hr222] at hok
        split at hok
        · exact absurd hok (by simp)
        · rename_i hsgn
          rcases hcc with ⟨hutlike, hr21⟩ | ⟨hutg, hr21, hkc⟩
          · rw [hr21] at hok
            rw [hr1] at hutlike
            rw [check_type_offset_of_read] at hok
            rcases hutlike with hut | hut
            · rw [hut] at hok
              simp only [rcuh_COMPILE, rcuh_TYPE, DW_UT_compile, DW_UT_type, DW_UT_skeleton,
                DW_UT_split_compile] at hok
              simp at hok
              obtain ⟨hh, hp⟩ := hok
              subst hh
              subst hp
              simp [version_at, offset_size_at, initial_length_size_at, effective_kind,
                unit_type_at, h5, hut, rcuh_COMPILE, rcuh_TYPE, DW_UT_type, DW_UT_split_type,
                DW_UT_skeleton, DW_UT_split_compile]
              refine ⟨cu_offset_narrow_small (read_n_bytes_lt sec.owner sec.buffer _ _), ?_⟩
              omega
            · rw [hut] at hok
              simp only [rcuh_COMPILE, rcuh_TYPE, DW_UT_compile, DW_UT_type, DW_UT_skeleton,
                DW_UT_split_compile, DW_UT_split_type] at hok
              simp at hok
              obtain ⟨hh, hp⟩ := hok
              subst hh
              subst hp
              simp [version_at, offset_size_at, initial_length_size_at, effective_kind,
                unit_type_at, h5, hut, rcuh_COMPILE, rcuh_TYPE, DW_UT_type, DW_UT_split_type,
                DW_UT_skeleton, DW_UT_split_compile]
              refine ⟨cu_offset_narrow_small (read_n_bytes_lt sec.owner sec.buffer _ _), ?_⟩
              omega
          · rw [hr21] at hok
            subst hkc
            rw [hr1] at hutg
            rcases hutg with hut | hut | hut | hut
            all_goals (
              rw [hut] at hok
              simp only [rcuh_COMPILE, rcuh_TYPE, DW_UT_compile, DW_UT_type, DW_UT_partial,
                DW_UT_skeleton, DW_UT_split_compile, DW_UT_split_type] at hok
              simp at hok
              obtain ⟨hh, hp⟩ := hok
              subst hh
              subst hp
              simp [version_at, offset_size_at, initial_length_size_at, effective_kind,
                unit_type_at, h5, hut, rcuh_COMPILE, rcuh_TYPE, DW_UT_compile, DW_UT_type,
                DW_UT_partial, DW_UT_skeleton, DW_UT_split_compile, DW_UT_split_type]
              try omega)

lemma decode_error_kinds {sec : dwarf2_section_info} {pos kind : Nat} {e : DwarfError}
    (he : read_comp_unit_head sec pos kind = Except.error e) :
    ((version_at sec pos < 2 ∨ 5 < version_at sec pos) ∧ e = DwarfError.BadVersion) ∨
    (¬(version_at sec pos < 2 ∨ 5 < version_at sec pos) ∧
      (resolve_unit_type sec.owner sec.buffer (version_at sec pos) kind
          (pos + (read_initial_length sec.owner sec.buffer pos).2 + 2) = Except.error e ∨
        (e = DwarfError.InvalidObjectFile ∧ sec.owner.sign_extend_vma < 0))) := by
  unfold version_at
  simp only [read_comp_unit_head] at he
  split at he
  · rename_i hv
    exact Or.inl ⟨hv, (Except.error.inj he).symm⟩
  · rename_i hv
    refine Or.inr ⟨hv, ?_⟩
    split at he
    · rename_i e0 heq
      rw [Except.error.inj he] at heq
      exact Or.inl heq
    · rename_i r heq
      split at he
      · rename_i hslt
        exact Or.inr ⟨(Except.error.inj he).symm, hslt⟩
      · split at he
        · rw [check_type_offset_of_read] at he
          simp at he
        · exact absurd he (by simp)

lemma decode_eq_badversion {sec : dwarf2_section_info} {pos : Nat} (kind : Nat)
    (hv : version_at sec pos < 2 ∨ 5 < version_at sec pos) :
    read_comp_unit_head sec pos kind = Except.error DwarfError.BadVersion := by
  unfold version_at at hv
  simp only [read_comp_unit_head]
  rw [if_pos hv]

lemma decode_resolve_error {sec : dwarf2_section_info} {pos kind : Nat} {e : DwarfError}
    (hvr : ¬(version_at sec pos < 2 ∨ 5 < version_at sec pos))
    (hres : resolve_unit_type sec.owner sec.buffer (version_at sec pos) kind
      (pos + (read_initial_length sec.owner sec.buffer pos).2 + 2) = Except.error e) :
    read_comp_unit_head sec pos kind = Except.error e := by
  unfold version_at at hvr hres
  simp only [read_comp_unit_head]
  rw [if_neg hvr, hres]

lemma resolve_typelike_any_kind {abfd : objfile_ctx} {buf : List Nat} {version p : Nat}
    (h5 : ¬ version < 5)
    (hut : read_1_byte abfd buf p = DW_UT_type ∨ read_1_byte abfd buf p = DW_UT_split_type)
    (kind : Nat) :
    resolve_unit_type abfd buf version kind p =
      resolve_unit_type abfd buf version rcuh_TYPE p := by
  have hno : ¬(read_1_byte abfd buf p = DW_UT_compile ∨ read_1_byte abfd buf p = DW_UT_partial ∨
      read_1_byte abfd buf p = DW_UT_skeleton ∨ read_1_byte abfd buf p = DW_UT_split_compile) := by
    rcases hut with h | h <;> rw [h] <;> decide
  unfold resolve_unit_type
  simp only [if_neg h5]
  rw [if_neg hno, if_pos hut]
  rw [if_neg hno]

/-- Claim C9: the raw entry point read_comp_unit_head performs no bounds
validation: over the same bytes, at the same cursor, with the same
expected kind and the same object-file byte order and sign-extension
policy, the decoded header fields, the cursor advance and
success/failure are identical whatever byte length the hosting section
reports; the abbreviation section's byte length is not even an input of
the raw decode. -/
theorem C9_raw_decode_ignores_section_sizes (buf : List Nat) (own : objfile_ctx)
    (pos kind s1 s2 : Nat) :
    read_comp_unit_head { buffer := buf, size := s1, owner := own } pos kind =
      read_comp_unit_head { buffer := buf, size := s2, owner := own } pos kind := rfl

/-- Claim C7: the decode fails with BadVersion exactly when the decoded
2-byte version lies outside [2,5]; for an in-range version no version
error is raised and a successful decode stores the decoded value in the
header's version field. -/
theorem C7_version_range (sec : dwarf2_section_info) (pos kind : Nat) :
    (read_comp_unit_head sec pos kind = Except.error DwarfError.BadVersion ↔
      (version_at sec pos < 2 ∨ 5 < version_at sec pos)) ∧
    (∀ h p, read_comp_unit_head sec pos kind = Except.ok (h, p) →
      h.version = version_at sec pos) := by
  constructor
  · constructor
    · intro he
      rcases decode_error_kinds he with ⟨hv, _⟩ | ⟨hvr, hrest⟩
      · exact hv
      · exfalso
        rcases hrest with hres | ⟨h1, _⟩
        · rcases resolve_error_char hres with h2 | h2 <;> simp_all
        · exact absurd h1 (by simp)
    · exact fun hv => decode_eq_badversion kind hv
  · intro h p hok
    exact (decode_ok_char hok).1

/-- Witness for C7 at a concrete version-3 stream. -/
theorem C7_version_range_witness :
    (read_comp_unit_head secV3 0 rcuh_COMPILE = Except.error DwarfError.BadVersion ↔
      (version_at secV3 0 < 2 ∨ 5 < version_at secV3 0)) ∧
    ({ length := 9, initial_length_size := 4, offset_size := 4, version := 3,
       unit_type := 1, addr_size := 4, abbrev_sect_off := 0, signed_addr_p := 1,
       signature := none, type_cu_offset_in_tu := none, sect_off := 0,
       first_die_cu_offset := 0 } : comp_unit_head).version = version_at secV3 0 := by
  refine ⟨(C7_version_range secV3 0 rcuh_COMPILE).1, ?_⟩
  exact (C7_version_range secV3 0 rcuh_COMPILE).2 _ 11 (by decide)

/-- Claim C3: the unit-length check of the validator passes exactly when
section_offset + length is at most the section's byte length, the
comparison being carried out in 64-bit arithmetic so that no overflow
occurs for values near the 32-bit limit; equality passes, one byte more
fails with BadUnitLength. -/
theorem C3_unit_length_bounds (header : comp_unit_head) (sec absec : dwarf2_section_info)
    (hso : header.sect_off ≤ 2 ^ 32) (hlen : header.length ≤ 2 ^ 32)
    (hab : header.abbrev_sect_off < absec.size) :
    (error_check_comp_unit_head header sec absec = Except.ok () ↔
      header.sect_off + header.length ≤ sec.size) ∧
    (error_check_comp_unit_head header sec absec = Except.error DwarfError.BadUnitLength ↔
      sec.size < header.sect_off + header.length) := by
  unfold error_check_comp_unit_head
  rw [if_neg (by omega)]
  have hmod : (header.sect_off + header.get_length) % 2 ^ 64 =
      header.sect_off + header.length := by
    unfold comp_unit_head.get_length
    apply Nat.mod_eq_of_lt
    have : (2 : Nat) ^ 32 + 2 ^ 32 < 2 ^ 64 := by norm_num
    omega
  rw [hmod]
  by_cases hcmp : sec.size < header.sect_off + header.length
  · rw [if_pos hcmp]
    exact ⟨⟨fun hc => absurd hc (by simp), fun hc => absurd hc (by omega)⟩,
           ⟨fun _ => hcmp, fun _ => rfl⟩⟩
  · rw [if_neg hcmp]
    exact ⟨⟨fun _ => by omega, fun _ => rfl⟩,
           ⟨fun hc => absurd hc (by simp), fun hc => absurd hc (by omega)⟩⟩

/-- Witness for C3: a unit ending exactly at the section end passes; a
section one byte shorter fails with BadUnitLength. -/
theorem C3_unit_length_bounds_witness :
    error_check_comp_unit_head hdrC3 { buffer := [], size := 150, owner := bfdLE } absec1 =
      Except.ok () ∧
    error_check_comp_unit_head hdrC3 { buffer := [], size := 149, owner := bfdLE } absec1 =
      Except.error DwarfError.BadUnitLength := by
  constructor
  · exact (C3_unit_length_bounds hdrC3 _ absec1 (by decide) (by decide) (by decide)).1.mpr
      (by decide)
  · exact (C3_unit_length_bounds hdrC3 _ absec1 (by decide) (by decide) (by decide)).2.mpr
      (by decide)

/-- Claim C4: the validator's abbreviation-offset check fails with
BadAbbrevOffset exactly when abbrev_offset is not strictly below the
abbreviation section's byte length; an offset equal to length - 1
passes that check, an offset equal to the length fails. -/
theorem C4_abbrev_offset_bounds (header : comp_unit_head) (sec absec : dwarf2_section_info) :
    (error_check_comp_unit_head header sec absec = Except.error DwarfError.BadAbbrevOffset ↔
      ¬ header.abbrev_sect_off < absec.size) ∧
    (absec.size = header.abbrev_sect_off + 1 →
      error_check_comp_unit_head header sec absec ≠ Except.error DwarfError.BadAbbrevOffset) ∧
    (absec.size = header.abbrev_sect_off →
      error_check_comp_unit_head header sec absec = Except.error DwarfError.BadAbbrevOffset) := by
  have hmain : error_check_comp_unit_head header sec absec =
      Except.error DwarfError.BadAbbrevOffset ↔ absec.size ≤ header.abbrev_sect_off := by
    unfold error_check_comp_unit_head
    by_cases habb : absec.size ≤ header.abbrev_sect_off
    · rw [if_pos habb]
      simp [habb]
    · rw [if_neg habb]
      simp only [habb, iff_false]
      split <;> simp
  refine ⟨by rw [hmain]; exact Nat.not_lt.symm, ?_, ?_⟩
  · intro hs
    rw [Ne, hmain]
    omega
  · intro hs
    rw [hmain]
    omega

/-- Witness for C4 at abbrev offset 0: a 1-byte abbreviation section
(length - 1 = offset) passes the check, a 0-byte one fails. -/
theorem C4_abbrev_offset_bounds_witness :
    error_check_comp_unit_head hdrC3 { buffer := [], size := 150, owner := bfdLE } absec1 ≠
      Except.error DwarfError.BadAbbrevOffset ∧
    error_check_comp_unit_head hdrC3 { buffer := [], size := 150, owner := bfdLE } absec0 =
      Except.error DwarfError.BadAbbrevOffset := by
  constructor
  · exact (C4_abbrev_offset_bounds hdrC3 _ absec1).2.1 (by decide)
  · exact (C4_abbrev_offset_bounds hdrC3 _ absec0).2.2 (by decide)

/-- Claim C2: on every successful decode the stored type offset survives
re-narrowing to the unit's offset_size width (it equals the decoded
value); the narrowing check rejects the crafted value 2^32 at
offset_size 4 with TypeOffsetTooLarge, while a full decode of a 64-bit
unit whose encoded type offset is 2^32 succeeds at offset_size 8 and
returns that very offset. -/
theorem C2_type_offset_narrowing :
    (∀ (sec : dwarf2_section_info) (pos kind : Nat) (h : comp_unit_head) (p : Nat),
      read_comp_unit_head sec pos kind = Except.ok (h, p) →
      ∀ t, h.type_cu_offset_in_tu = some t → cu_offset_narrow t h.offset_size = t) ∧
    check_type_offset (2 ^ 32) 4 = Except.error DwarfError.TypeOffsetTooLarge ∧
    (read_comp_unit_head secDwarf64type 0 rcuh_TYPE = Except.ok (hdr64, 40) ∧
      hdr64.offset_size = 8 ∧ hdr64.type_cu_offset_in_tu = some (2 ^ 32)) := by
  refine ⟨?_, by decide, by decide, by decide, by decide⟩
  intro sec pos kind h p hok t ht
  exact (decode_ok_char hok).2.2.2.2.1 t ht

/-- Witness for C2's universally quantified part at the concrete 64-bit
type unit whose type offset is 2^32. -/
theorem C2_type_offset_narrowing_witness :
    cu_offset_narrow (2 ^ 32) 8 = 2 ^ 32 := by
  have h1 := C2_type_offset_narrowing.1 secDwarf64type 0 rcuh_TYPE hdr64 40 (by decide)
    (2 ^ 32) (by decide)
  simpa using h1

/-- Claim C6: on every successful decode an 8-byte signature was read
exactly when the effective kind is type-like or the unit type is
skeleton or split_compile, and a type offset of offset_size width was
read exactly when the effective kind is type-like. -/
theorem C6_signature_and_type_offset_presence (sec : dwarf2_section_info) (pos kind : Nat)
    (h : comp_unit_head) (p : Nat)
    (hok : read_comp_unit_head sec pos kind = Except.ok (h, p)) :
    (h.signature.isSome ↔ (effective_kind sec pos kind = rcuh_TYPE ∨
        h.unit_type = DW_UT_skeleton ∨ h.unit_type = DW_UT_split_compile)) ∧
    (h.type_cu_offset_in_tu.isSome ↔ effective_kind sec pos kind = rcuh_TYPE) := by
  exact ⟨(decode_ok_char hok).2.2.1, (decode_ok_char hok).2.2.2.1⟩

/-- Witness for C6 at a concrete version-5 skeleton unit: a signature is
present but no type offset. -/
theorem C6_signature_and_type_offset_presence_witness :
    (hdrSkel.signature.isSome ↔ (effective_kind secV5skeleton 0 rcuh_COMPILE = rcuh_TYPE ∨
        hdrSkel.unit_type = DW_UT_skeleton ∨ hdrSkel.unit_type = DW_UT_split_compile)) ∧
    (hdrSkel.type_cu_offset_in_tu.isSome ↔
      effective_kind secV5skeleton 0 rcuh_COMPILE = rcuh_TYPE) :=
  C6_signature_and_type_offset_presence secV5skeleton 0 rcuh_COMPILE hdrSkel 20 (by decide)

/-- Claim C8: address_size is read right after abbrev_offset for
versions below 5 but right after the unit-type byte (before
abbrev_offset) for version 5; concretely, a version-4 compile unit with
4-byte initial length, 4-byte abbrev offset and 1-byte address size
yields first_die_offset 11, offset_size 4, unit_type compile, no
signature and no type offset. -/
theorem C8_address_size_position (sec : dwarf2_section_info) (pos kind : Nat) :
    (∀ h p, read_comp_unit_head sec pos kind = Except.ok (h, p) →
      h.addr_size = (if version_at sec pos < 5 then
          read_1_byte sec.owner sec.buffer
            (pos + initial_length_size_at sec pos + 2 + offset_size_at sec pos)
        else read_1_byte sec.owner sec.buffer
            (pos + initial_length_size_at sec pos + 2 + 1))) ∧
    read_and_check_comp_unit_head secV4 absec1 0 rcuh_COMPILE =
      Except.ok (hdrV4checked, 11) := by
  refine ⟨?_, by decide⟩
  intro h p hok
  exact (decode_ok_char hok).2.2.2.2.2.1

/-- Witness for C8's positional part, at a version-4 and a version-5
stream: the version-4 address size sits after the abbrev offset, the
version-5 one right after the unit-type byte. -/
theorem C8_address_size_position_witness :
    ({ length := 20, initial_length_size := 4, offset_size := 4, version := 4, unit_type := 1,
       addr_size := 8, abbrev_sect_off := 0, signed_addr_p := 1, signature := none,
       type_cu_offset_in_tu := none, sect_off := 0,
       first_die_cu_offset := 0 } : comp_unit_head).addr_size =
      (if version_at secV4 0 < 5 then
        read_1_byte secV4.owner secV4.buffer
          (0 + initial_length_size_at secV4 0 + 2 + offset_size_at secV4 0)
      else read_1_byte secV4.owner secV4.buffer
          (0 + initial_length_size_at secV4 0 + 2 + 1)) := by
  exact (C8_address_size_position secV4 0 rcuh_COMPILE).1 _ 11 (by decide)

/-- Claim C1: for a version-5 decode, a unit-type byte of type or
split_type reclassifies the effective kind to type-like whatever the
caller requested (the decode is identical to one requested with the
TYPE kind) and raises no unit-type error; the four compile-like codes
under a type-like expected kind fail with BadUnitType; any unassigned
code (0x80 and 0xff included) fails with BadUnitType for every expected
kind. -/
theorem C1_v5_unit_type_resolution (sec : dwarf2_section_info) (pos kind : Nat)
    (hv : version_at sec pos = 5) :
    ((unit_type_at sec pos = DW_UT_type ∨ unit_type_at sec pos = DW_UT_split_type) →
      read_comp_unit_head sec pos kind = read_comp_unit_head sec pos rcuh_TYPE ∧
      read_comp_unit_head sec pos kind ≠ Except.error DwarfError.BadUnitType) ∧
    ((unit_type_at sec pos = DW_UT_compile ∨ unit_type_at sec pos = DW_UT_partial ∨
        unit_type_at sec pos = DW_UT_skeleton ∨ unit_type_at sec pos = DW_UT_split_compile) →
      kind = rcuh_TYPE →
      read_comp_unit_head sec pos kind = Except.error DwarfError.BadUnitType) ∧
    ((unit_type_at sec pos ≠ DW_UT_compile ∧ unit_type_at sec pos ≠ DW_UT_type ∧
        unit_type_at sec pos ≠ DW_UT_partial ∧ unit_type_at sec pos ≠ DW_UT_skeleton ∧
        unit_type_at sec pos ≠ DW_UT_split_compile ∧ unit_type_at sec pos ≠ DW_UT_split_type) →
      read_comp_unit_head sec pos kind = Except.error DwarfError.BadUnitType) := by
  have hvr : ¬(version_at sec pos < 2 ∨ 5 < version_at sec pos) := by omega
  have h5 : ¬ version_at sec pos < 5 := by omega
  refine ⟨?_, ?_, ?_⟩
  · intro hut
    unfold unit_type_at at hut
    have hno : ¬(read_1_byte sec.owner sec.buffer
          (pos + (read_initial_length sec.owner sec.buffer pos).2 + 2) = DW_UT_compile ∨
        read_1_byte sec.owner sec.buffer
          (pos + (read_initial_length sec.owner sec.buffer pos).2 + 2) = DW_UT_partial ∨
        read_1_byte sec.owner sec.buffer
          (pos + (read_initial_length sec.owner sec.buffer pos).2 + 2) = DW_UT_skeleton ∨
        read_1_byte sec.owner sec.buffer
          (pos + (read_initial_length sec.owner sec.buffer pos).2 + 2) = DW_UT_split_compile) := by
      rcases hut with hx | hx <;> rw [hx] <;> decide
    constructor
    · have hres := resolve_typelike_any_kind h5 hut kind
      unfold version_at at hres
      simp only [read_comp_unit_head]
      rw [hres]
    · intro he
      rcases decode_error_kinds he with ⟨hvv, _⟩ | ⟨_, hrest⟩
      · exact hvr hvv
      · rcases hrest with hresE | ⟨h1, _⟩
        · unfold resolve_unit_type at hresE
          rw [if_neg h5] at hresE
          simp only [] at hresE
          rw [if_neg hno, if_pos hut] at hresE
          exact absurd hresE (by simp)
        · exact absurd h1 (by simp)
  · intro hut hkt
    unfold unit_type_at at hut
    apply decode_resolve_error hvr
    unfold resolve_unit_type
    rw [if_neg h5]
    simp only []
    rw [if_pos hut, if_pos (by rw [hkt]; decide)]
  · intro hne
    unfold unit_type_at at hne
    apply decode_resolve_error hvr
    unfold resolve_unit_type
    rw [if_neg h5]
    simp only []
    have hnog : ¬(read_1_byte sec.owner sec.buffer
          (pos + (read_initial_length sec.owner sec.buffer pos).2 + 2) = DW_UT_compile ∨
        read_1_byte sec.owner sec.buffer
          (pos + (read_initial_length sec.owner sec.buffer pos).2 + 2) = DW_UT_partial ∨
        read_1_byte sec.owner sec.buffer
          (pos + (read_initial_length sec.owner sec.buffer pos).2 + 2) = DW_UT_skeleton ∨
        read_1_byte sec.owner sec.buffer
          (pos + (read_initial_length sec.owner sec.buffer pos).2 + 2) = DW_UT_split_compile) := by
      push_neg
      exact ⟨hne.1, hne.2.2.1, hne.2.2.2.1, hne.2.2.2.2.1⟩
    have hnot : ¬(read_1_byte sec.owner sec.buffer
          (pos + (read_initial_length sec.owner sec.buffer pos).2 + 2) = DW_UT_type ∨
        read_1_byte sec.owner sec.buffer
          (pos + (read_initial_length sec.owner sec.buffer pos).2 + 2) = DW_UT_split_type) := by
      push_neg
      exact ⟨hne.2.1, hne.2.2.2.2.2⟩
    rw [if_neg hnog, if_neg hnot]

/-- Witness for C1: a type unit-type byte decodes identically under
either expected kind; a skeleton byte under a type-like kind and a
lo_user byte under a compile-like kind both fail with BadUnitType. -/
theorem C1_v5_unit_type_resolution_witness :
    (read_comp_unit_head secV5type 0 rcuh_COMPILE =
        read_comp_unit_head secV5type 0 rcuh_TYPE ∧
      read_comp_unit_head secV5type 0 rcuh_COMPILE ≠
        Except.error DwarfError.BadUnitType) ∧
    read_comp_unit_head secV5skeleton 0 rcuh_TYPE = Except.error DwarfError.BadUnitType ∧
    read_comp_unit_head secV5louser 0 rcuh_COMPILE = Except.error DwarfError.BadUnitType := by
  refine ⟨(C1_v5_unit_type_resolution secV5type 0 rcuh_COMPILE (by decide)).1 (by decide),
    ?_, ?_⟩
  · exact (C1_v5_unit_type_resolution secV5skeleton 0 rcuh_TYPE (by decide)).2.1
      (by decide) rfl
  · exact (C1_v5_unit_type_resolution secV5louser 0 rcuh_COMPILE (by decide)).2.2 (by decide)

/-- Claim C5: a decode with version 2, 3 or 4 and a compile-like or
type-like expected kind succeeds (given a defined sign-extension
policy) with unit_type synthesized as compile or type respectively, and
the final cursor accounts for the initial length, version, abbrev
offset, address size and conditional type-unit fields only — no byte is
consumed for a unit-type field. -/
theorem C5_pre_v5_unit_type_synthesis (sec : dwarf2_section_info) (pos kind : Nat)
    (hv2 : 2 ≤ version_at sec pos) (hv5 : version_at sec pos < 5)
    (hsgn : 0 ≤ sec.owner.sign_extend_vma)
    (hk : kind = rcuh_COMPILE ∨ kind = rcuh_TYPE) :
    ∃ h p, read_comp_unit_head sec pos kind = Except.ok (h, p) ∧
      h.unit_type = (if kind = rcuh_COMPILE then DW_UT_compile else DW_UT_type) ∧
      h.version = version_at sec pos ∧
      p = pos + initial_length_size_at sec pos + 2 + offset_size_at sec pos + 1 +
        (if kind = rcuh_TYPE then 8 + offset_size_at sec pos else 0) := by
  cases hres : read_comp_unit_head sec pos kind with
  | error e =>
    exfalso
    rcases decode_error_kinds hres with ⟨hvv, _⟩ | ⟨hvr2, hrest⟩
    · omega
    · rcases hrest with hresE | ⟨_, hslt⟩
      · unfold resolve_unit_type at hresE
        rw [if_pos hv5] at hresE
        rcases hk with hkc | hkt
        · rw [if_pos hkc] at hresE
          exact absurd hresE (by simp)
        · by_cases hcc : kind = rcuh_COMPILE
          · rw [if_pos hcc] at hresE
            exact absurd hresE (by simp)
          · rw [if_neg hcc, if_pos hkt] at hresE
            exact absurd hresE (by simp)
      · omega
  | ok hp =>
    obtain ⟨h, p⟩ := hp
    have hc := decode_ok_char hres
    have heff : effective_kind sec pos kind = kind := by
      unfold effective_kind
      rw [if_pos hv5]
    have hut := hc.2.2.2.2.2.2.1 hv5
    have hcur := hc.2.2.2.2.2.2.2
    rw [heff] at hcur
    refine ⟨h, p, rfl, hut, hc.1, ?_⟩
    rcases hk with hkc | hkt
    · subst hkc
      rw [if_pos rfl] at hut
      rw [if_pos hv5, hut] at hcur
      rw [if_neg (by decide), if_neg (by decide)] at hcur
      rw [if_neg (by decide)]
      omega
    · subst hkt
      rw [if_neg (by decide)] at hut
      rw [if_pos hv5, hut] at hcur
      rw [if_pos (Or.inl rfl), if_pos rfl] at hcur
      rw [if_pos rfl]
      omega

/-- Witness for C5 at the concrete version-4 compile unit secV4. -/
theorem C5_pre_v5_unit_type_synthesis_witness :
    2 ≤ version_at secV4 0 ∧ version_at secV4 0 < 5 ∧
    (∃ h p, read_comp_unit_head secV4 0 rcuh_COMPILE = Except.ok (h, p) ∧
      h.unit_type = (if rcuh_COMPILE = rcuh_COMPILE then DW_UT_compile else DW_UT_type) ∧
      h.version = version_at secV4 0 ∧
      p = 0 + initial_length_size_at secV4 0 + 2 + offset_size_at secV4 0 + 1 +
        (if rcuh_COMPILE = rcuh_TYPE then 8 + offset_size_at secV4 0 else 0)) :=
  ⟨by decide, by decide, C5_pre_v5_unit_type_synthesis secV4 0 rcuh_COMPILE (by decide)
    (by decide) (by decide) (Or.inl rfl)⟩

/-- Claim C10: a decode with version below 5 requires the caller's
section kind to be COMPILE or TYPE: any other value reaches the
internal-error branch, and under the precondition that branch is never
taken. -/
theorem C10_section_kind_precondition (sec : dwarf2_section_info) (pos kind : Nat)
    (hv2 : 2 ≤ version_at sec pos) (hv5 : version_at sec pos < 5) :
    (¬(kind = rcuh_COMPILE ∨ kind = rcuh_TYPE) →
      read_comp_unit_head sec pos kind = Except.error DwarfError.InvalidSectionKind) ∧
    ((kind = rcuh_COMPILE ∨ kind = rcuh_TYPE) →
      read_comp_unit_head sec pos kind ≠ Except.error DwarfError.InvalidSectionKind) := by
  have hvr : ¬(version_at sec pos < 2 ∨ 5 < version_at sec pos) := by omega
  constructor
  · intro hkbad
    apply decode_resolve_error hvr
    unfold resolve_unit_type
    rw [if_pos hv5]
    rw [if_neg (fun hc => hkbad (Or.inl hc)), if_neg (fun hc => hkbad (Or.inr hc))]
  · intro hk he
    rcases decode_error_kinds he with ⟨hvv, _⟩ | ⟨_, hrest⟩
    · exact hvr hvv
    · rcases hrest with hresE | ⟨h1, _⟩
      · unfold resolve_unit_type at hresE
        rw [if_pos hv5] at hresE
        rcases hk with hkc | hkt
        · rw [if_pos hkc] at hresE
          exact absurd hresE (by simp)
        · by_cases hcc : kind = rcuh_COMPILE
          · rw [if_pos hcc] at hresE
            exact absurd hresE (by simp)
          · rw [if_neg hcc, if_pos hkt] at hresE
            exact absurd hresE (by simp)
      · exact absurd h1 (by simp)

/-- Witness for C10 at secV4: the invalid kind 7 hits the internal
error, the COMPILE kind never does. -/
theorem C10_section_kind_precondition_witness :
    read_comp_unit_head secV4 0 7 = Except.error DwarfError.InvalidSectionKind ∧
    read_comp_unit_head secV4 0 rcuh_COMPILE ≠
      Except.error DwarfError.InvalidSectionKind := by
  constructor
  · exact (C10_section_kind_precondition secV4 0 7 (by decide) (by decide)).1 (by decide)
  · exact (C10_section_kind_precondition secV4 0 rcuh_COMPILE (by decide) (by decide)).2
      (Or.inl rfl)
